import Mathlib

/-
Verification of the RefineryIQ dashboard analytics behaviour.

The definitions below are shallow embeddings of the JavaScript frontend
(Dashboard.js, Energy.js, Supply.js, and the Maintenance view) together with
spec-modelled definitions for the backend energy scorer and explanation
generator, whose implementation is not part of the available sources.

JavaScript numbers are modelled as rationals; possibly-absent JSON fields are
modelled as Option values; the JavaScript truthiness coalescing operator
(x or-or d) on numeric fields is modelled by jsOrQ, which substitutes the
default both when the field is absent and when it is 0, exactly as the
or-or operator does.
-/

/-! ## Dashboard.js: advanced stats snapshot -/

/-- The oee object of an advanced-stats snapshot: score, quality,
availability, performance (Dashboard.js). -/
structure OeeStats where
  score : ℚ
  quality : ℚ
  availability : ℚ
  performance : ℚ
deriving DecidableEq, Repr

/-- The stability object of an advanced-stats snapshot. -/
structure StabilityStats where
  index : ℚ
  trend : String
deriving DecidableEq, Repr

/-- The financial object of an advanced-stats snapshot. -/
structure FinancialStats where
  daily_loss_usd : ℚ
deriving DecidableEq, Repr

/-- An advanced-stats snapshot as consumed by Dashboard.js.  JSON objects may
carry an optional degraded flag; the snapshots built by Dashboard.js never set
one, which is modelled by the field holding none. -/
structure AdvancedStats where
  oee : OeeStats
  stability : StabilityStats
  financial : FinancialStats
  degraded : Option Bool
deriving DecidableEq, Repr

/-- The hard-coded fallback snapshot of Dashboard.js (lines 86-91), substituted
when the advanced-stats fetch returns no data. -/
def defaultAdvanced : AdvancedStats :=
  { oee := { score := 85, quality := 99.5, availability := 98.0, performance := 85 }
    stability := { index := 90, trend := "stable" }
    financial := { daily_loss_usd := 4350 }
    degraded := none }

/-- The composite OEE recomputed from the components, as the spec defines it:
quality times availability times performance divided by 10000. -/
def oeeComposite (o : OeeStats) : ℚ :=
  o.quality * o.availability * o.performance / 10000

/-- Dashboard.js loadData, advanced branch: if the advanced-stats request
yielded data it is stored, otherwise defaultAdvanced is stored; the previous
snapshot plays no role, and this branch sets no user-facing error (the three
requests each catch their own failure and the success path clears the error
state). Returns the new snapshot and the user-facing error. -/
def loadDataAdvanced (fetched : Option AdvancedStats) (_prev : Option AdvancedStats) :
    Option AdvancedStats × Option String :=
  (some (fetched.getD defaultAdvanced), none)

/-- A sample previous snapshot, used to exhibit that the previous snapshot is
not retained on fetch failure. -/
def samplePrevSnapshot : AdvancedStats :=
  { oee := { score := 70, quality := 90, availability := 92, performance := 84 }
    stability := { index := 60, trend := "declining" }
    financial := { daily_loss_usd := 1200 }
    degraded := none }

/-! ## Theorems for C1 -/

/-- Claim C1 counterexample: the default snapshot that Dashboard.js substitutes
when the advanced-stats fetch returns no data has composite score 85, while
quality times availability times performance divided by 10000 is 82.8835, so
the claimed equality (up to floating tolerance) fails on this presented
snapshot. -/
theorem c1_default_composite_counterexample :
    defaultAdvanced.oee.score = 85 ∧
    oeeComposite defaultAdvanced.oee = 165767 / 2000 ∧
    ¬ |defaultAdvanced.oee.score - oeeComposite defaultAdvanced.oee| < 1 / 100 := by
  refine ⟨rfl, ?_, ?_⟩
  · norm_num [oeeComposite, defaultAdvanced]
  · rw [not_lt, show defaultAdvanced.oee.score - oeeComposite defaultAdvanced.oee
        = 4233 / 2000 by norm_num [oeeComposite, defaultAdvanced],
      abs_of_pos (by norm_num : (0 : ℚ) < 4233 / 2000)]
    norm_num

/-- Claim C1 (amended): for the default snapshot Dashboard.js substitutes, each
OEE component and the stored composite score lie in the interval from 0 to 100,
but the stored composite (85) is not the product formula value
quality times availability times performance divided by 10000, which is
82.8835: the default snapshot carries a patched score, not one recomputed from
its components. -/
theorem c1_default_snapshot_amended :
    (0 ≤ defaultAdvanced.oee.quality ∧ defaultAdvanced.oee.quality ≤ 100) ∧
    (0 ≤ defaultAdvanced.oee.availability ∧ defaultAdvanced.oee.availability ≤ 100) ∧
    (0 ≤ defaultAdvanced.oee.performance ∧ defaultAdvanced.oee.performance ≤ 100) ∧
    (0 ≤ defaultAdvanced.oee.score ∧ defaultAdvanced.oee.score ≤ 100) ∧
    (0 ≤ oeeComposite defaultAdvanced.oee ∧ oeeComposite defaultAdvanced.oee ≤ 100) ∧
    defaultAdvanced.oee.score ≠ oeeComposite defaultAdvanced.oee := by
  norm_num [oeeComposite, defaultAdvanced]

/-! ## Theorems for C3 -/

/-- Claim C3 counterexample: when the advanced-stats fetch yields no data and a
previous snapshot exists, Dashboard.js stores the fabricated default snapshot:
the result is neither flagged degraded nor equal to the retained previous
snapshot. -/
theorem c3_fetch_failure_counterexample :
    (loadDataAdvanced none (some samplePrevSnapshot)).1 = some defaultAdvanced ∧
    defaultAdvanced.degraded ≠ some true ∧
    some defaultAdvanced ≠ some samplePrevSnapshot := by
  refine ⟨rfl, by simp [defaultAdvanced], ?_⟩
  simp only [ne_eq, Option.some.injEq]
  intro h
  exact absurd (congrArg (fun s => s.oee.score) h) (by norm_num [defaultAdvanced, samplePrevSnapshot])

/-- Claim C3 (amended): whenever the advanced-stats fetch returns no data,
Dashboard.js raises no user-facing error, but it neither retains the previous
snapshot nor flags degradation: it always substitutes the fixed fabricated
default snapshot (oee score 85, stability index 90, daily loss 4350), which
carries no degraded flag. -/
theorem c3_fetch_failure_amended (prev : Option AdvancedStats) :
    (loadDataAdvanced none prev).2 = none ∧
    (loadDataAdvanced none prev).1 = some defaultAdvanced ∧
    defaultAdvanced.degraded = none ∧
    defaultAdvanced.oee.score = 85 ∧
    defaultAdvanced.stability.index = 90 ∧
    defaultAdvanced.financial.daily_loss_usd = 4350 := by
  exact ⟨rfl, rfl, rfl, rfl, rfl, rfl⟩

/-! ## Maintenance view (src/unnamed/part_007): predictions -/

/-- A maintenance prediction record as consumed by the Maintenance view.
failure_probability, confidence and rul_hours may be absent from the JSON
payload; is_anomaly models the truthiness of the corresponding field. -/
structure Prediction where
  equipment_id : String
  equipment_name : Option String
  failure_probability : Option ℚ
  confidence : Option ℚ
  is_anomaly : Bool
  rul_hours : Option ℚ
  recommendation : Option String
deriving DecidableEq, Repr

/-- JavaScript or-or coalescing on a possibly-absent numeric field: the default
is substituted both when the field is absent and when it holds 0 (both are
falsy). -/
def jsOrQ (v : Option ℚ) (d : ℚ) : ℚ :=
  match v with
  | none => d
  | some x => if x = 0 then d else x

/-- JavaScript strict greater-than comparison of a possibly-absent field with a
constant: comparing an absent field (undefined, hence NaN) is always false. -/
def jsGtQ (v : Option ℚ) (c : ℚ) : Bool :=
  match v with
  | none => false
  | some x => decide (c < x)

/-- JavaScript less-or-equal comparison of a possibly-absent field with a
constant: comparing an absent field (undefined, hence NaN) is always false. -/
def jsLeQ (v : Option ℚ) (c : ℚ) : Bool :=
  match v with
  | none => false
  | some x => decide (x ≤ c)

/-- The failure probability figure the Maintenance view prints for an item
(part_007 line 279): item.failure_probability coalesced to 0. -/
def displayedFailureProbability (p : Prediction) : ℚ :=
  jsOrQ p.failure_probability 0

/-- The confidence figure the Maintenance view prints for an item
(part_007 line 370): item.confidence coalesced to 75. -/
def displayedConfidence (p : Prediction) : ℚ :=
  jsOrQ p.confidence 75

/-- Whether the Zero-Day anomaly badge is rendered for an item
(part_007 line 304): exactly the truthiness of item.is_anomaly. -/
def anomalyBadgeShown (p : Prediction) : Bool :=
  p.is_anomaly

/-- The anomaly KPI count of the Maintenance view (part_007 line 151). -/
def anomalyCount (ps : List Prediction) : ℕ :=
  (ps.filter (fun p => p.is_anomaly)).length

/-- The critical KPI count of the Maintenance view (part_007 line 148). -/
def criticalCount (ps : List Prediction) : ℕ :=
  (ps.filter (fun p => jsGtQ p.failure_probability 80)).length

/-- The warning KPI count of the Maintenance view (part_007 line 149). -/
def warningCount (ps : List Prediction) : ℕ :=
  (ps.filter (fun p => jsGtQ p.failure_probability 40 && jsLeQ p.failure_probability 80)).length

/-- The normal KPI count of the Maintenance view (part_007 line 150). -/
def normalCount (ps : List Prediction) : ℕ :=
  (ps.filter (fun p => jsLeQ p.failure_probability 40)).length

/-- A prediction whose scoring output fields are absent. -/
def unscoredPrediction : Prediction :=
  { equipment_id := "P-201"
    equipment_name := some "Bomba Centrifuga"
    failure_probability := none
    confidence := none
    is_anomaly := false
    rul_hours := none
    recommendation := none }

/-! ## Theorems for C2 -/

/-- Claim C2 (code bug evaluation): for a prediction whose failure_probability
and confidence are absent, the Maintenance view nevertheless presents definite
numeric values: failure probability 0 (rendered 0.0 percent) and confidence 75
(rendered 75.0 percent), fabricated defaults rather than an unscoreable
result. -/
theorem c2_fabricated_defaults_eval :
    displayedFailureProbability unscoredPrediction = 0 ∧
    displayedConfidence unscoredPrediction = 75 ∧
    unscoredPrediction.failure_probability = none ∧
    unscoredPrediction.confidence = none := by
  exact ⟨rfl, rfl, rfl, rfl⟩

/-! ## Theorems for C4 -/

/-- Claim C4: the anomaly indication is independent of failure_probability: two
predictions agreeing on is_anomaly but differing in failure_probability get the
same badge, two prediction lists pointwise agreeing on is_anomaly yield the
same anomaly count, and a low failure probability together with is_anomaly set
is a displayed combination (the badge is rendered). -/
theorem c4_anomaly_independent :
    (∀ p q : Prediction, p.is_anomaly = q.is_anomaly →
      p.failure_probability ≠ q.failure_probability →
      anomalyBadgeShown p = anomalyBadgeShown q) ∧
    (∀ ps qs : List Prediction,
      List.Forall₂ (fun p q => p.is_anomaly = q.is_anomaly) ps qs →
      anomalyCount ps = anomalyCount qs) ∧
    (∀ p : Prediction, p.failure_probability = some 1 → p.is_anomaly = true →
      anomalyBadgeShown p = true) := by
  refine ⟨fun p q h _ => h, fun ps qs h => ?_, fun p _ h => h⟩
  induction h with
  | nil => rfl
  | @cons a b l₁ l₂ hab _hl ih =>
    simp only [anomalyCount] at ih
    simp only [anomalyCount, List.filter_cons, hab]
    cases hb : b.is_anomaly <;> simp [hb, ih]

/-- An anomalous prediction with a low failure probability. -/
def lowRiskAnomaly : Prediction :=
  { equipment_id := "K-301"
    equipment_name := some "Compresor"
    failure_probability := some 1
    confidence := some 88
    is_anomaly := true
    rul_hours := none
    recommendation := some "Inspeccionar" }

/-- An anomalous prediction with a high failure probability. -/
def highRiskAnomaly : Prediction :=
  { equipment_id := "K-302"
    equipment_name := some "Compresor B"
    failure_probability := some 95
    confidence := some 90
    is_anomaly := true
    rul_hours := some 48
    recommendation := some "Detener" }

/-- Witness for C4 at concrete predictions sharing is_anomaly but with
failure probabilities 1 and 95. -/
theorem c4_anomaly_independent_witness :
    anomalyBadgeShown lowRiskAnomaly = anomalyBadgeShown highRiskAnomaly ∧
    anomalyCount [lowRiskAnomaly] = anomalyCount [highRiskAnomaly] ∧
    anomalyBadgeShown lowRiskAnomaly = true :=
  ⟨c4_anomaly_independent.1 lowRiskAnomaly highRiskAnomaly rfl (by decide),
   c4_anomaly_independent.2.1 [lowRiskAnomaly] [highRiskAnomaly]
     (List.Forall₂.cons rfl List.Forall₂.nil),
   c4_anomaly_independent.2.2 lowRiskAnomaly rfl rfl⟩

/-! ## Theorems for C10 -/

/-- Claim C10 counterexample: a prediction whose failure_probability field is
absent satisfies none of the three bucket predicates (a JavaScript comparison
against undefined is always false), so for the one-element list holding it the
three counts sum to 0, not to the list length 1. -/
theorem c10_missing_probability_counterexample :
    criticalCount [unscoredPrediction] + warningCount [unscoredPrediction] +
      normalCount [unscoredPrediction] = 0 ∧
    [unscoredPrediction].length = 1 := by
  exact ⟨rfl, rfl⟩

/-- Claim C10 (amended): for every list of predictions in which every
failure_probability is present, the three risk buckets of the Maintenance view
(critical above 80, warning above 40 and at most 80, normal at most 40)
partition the list, so the three counts sum to its length. -/
theorem c10_risk_counts_partition (ps : List Prediction)
    (h : ∀ p ∈ ps, p.failure_probability.isSome) :
    criticalCount ps + warningCount ps + normalCount ps = ps.length := by
  induction ps with
  | nil => rfl
  | cons p t ih =>
    have hp : p.failure_probability.isSome := h p (List.mem_cons_self p t)
    have ht := ih (fun q hq => h q (List.mem_cons_of_mem _ hq))
    obtain ⟨x, hx⟩ := Option.isSome_iff_exists.mp hp
    simp only [criticalCount, warningCount, normalCount, List.filter_cons,
      List.length_cons] at ht ⊢
    rw [hx]
    simp only [jsGtQ, jsLeQ] at ht ⊢
    by_cases h80 : (80 : ℚ) < x
    · have h40x : (40 : ℚ) < x := by linarith
      have hn80 : ¬ x ≤ 80 := by linarith
      have hn40 : ¬ x ≤ 40 := by linarith
      rw [decide_eq_true h80, decide_eq_true h40x, decide_eq_false hn80,
        decide_eq_false hn40]
      simp
      omega
    · by_cases h40 : (40 : ℚ) < x
      · have hle80 : x ≤ 80 := not_lt.mp h80
        have hn40 : ¬ x ≤ 40 := by linarith
        rw [decide_eq_false h80, decide_eq_true h40, decide_eq_true hle80,
          decide_eq_false hn40]
        simp
        omega
      · have hle40 : x ≤ 40 := not_lt.mp h40
        have hle80 : x ≤ 80 := by linarith
        rw [decide_eq_false h80, decide_eq_false h40, decide_eq_true hle80,
          decide_eq_true hle40]
        simp
        omega

/-- A concrete prediction list with one item per risk bucket. -/
def bucketedPredictions : List Prediction :=
  [{ equipment_id := "E-1", equipment_name := none, failure_probability := some 90,
     confidence := some 80, is_anomaly := false, rul_hours := none, recommendation := none },
   { equipment_id := "E-2", equipment_name := none, failure_probability := some 55,
     confidence := some 70, is_anomaly := false, rul_hours := none, recommendation := none },
   { equipment_id := "E-3", equipment_name := none, failure_probability := some 10,
     confidence := some 95, is_anomaly := false, rul_hours := none, recommendation := none }]

/-- Witness for the amended C10 at a concrete three-element prediction list. -/
theorem c10_risk_counts_partition_witness :
    criticalCount bucketedPredictions + warningCount bucketedPredictions +
      normalCount bucketedPredictions = bucketedPredictions.length :=
  c10_risk_counts_partition bucketedPredictions (by decide)

/-! ## Energy view (src/frontend/src/views/Energy.js) -/

/-- An energy-analysis row as consumed by Energy.js; efficiency_score may be
absent from the payload. -/
structure EnergyRow where
  unit_name : Option String
  efficiency_score : Option ℚ
  savings_potential : Option ℚ
  recommendation : Option String
deriving DecidableEq, Repr

/-- The efficiency figure Energy.js renders for a row (lines 120-128):
row.efficiency_score coalesced to 0. -/
def displayedEfficiencyScore (r : EnergyRow) : ℚ :=
  jsOrQ r.efficiency_score 0

/-- Energy.js getEfficiencyColor (lines 48-52): green at 90 and above, yellow
at 75 and above, red otherwise. -/
def getEfficiencyColor (s : ℚ) : String :=
  if 90 ≤ s then "#10b981" else if 75 ≤ s then "#f59e0b" else "#ef4444"

/-- The progress-bar fill width Energy.js renders for a row (line 120):
the coalesced score capped at 100. -/
def efficiencyBarWidth (r : EnergyRow) : ℚ :=
  min (displayedEfficiencyScore r) 100

/-- The status badge Energy.js renders for a row (lines 135-136): OPTIMAL when
the coalesced score exceeds 90, REVISAR otherwise. -/
def energyRowStatus (r : EnergyRow) : String :=
  if 90 < displayedEfficiencyScore r then "OPTIMAL" else "REVISAR"

/-- An energy row whose efficiency_score is absent. -/
def missingScoreRow : EnergyRow :=
  { unit_name := some "Unidad de Destilacion CDU-101"
    efficiency_score := none
    savings_potential := none
    recommendation := none }

/-! ## Theorems for C6 -/

/-- Claim C6 (code bug evaluation): for a row whose efficiency_score is absent,
Energy.js presents the valid-looking score 0 (rendered 0.0 percent), colours
the bar red, and draws it at zero width (full deficit), instead of treating the
value as missing. -/
theorem c6_missing_score_rendered_as_zero :
    missingScoreRow.efficiency_score = none ∧
    displayedEfficiencyScore missingScoreRow = 0 ∧
    getEfficiencyColor (displayedEfficiencyScore missingScoreRow) = "#ef4444" ∧
    efficiencyBarWidth missingScoreRow = 0 := by
  refine ⟨rfl, rfl, ?_, ?_⟩
  · norm_num [getEfficiencyColor, displayedEfficiencyScore, jsOrQ, missingScoreRow]
  · norm_num [efficiencyBarWidth, displayedEfficiencyScore, jsOrQ, missingScoreRow]

/-! ## Theorems for C8 -/

/-- Claim C8: the per-row status of the energy analysis is determined by the
score bracket alone: a row is marked OPTIMAL exactly when it carries an
efficiency score strictly above 90 (an absent score, coalesced to 0, is marked
REVISAR), and the status is a function of the efficiency_score field only. -/
theorem c8_energy_status_rule :
    (∀ r : EnergyRow, energyRowStatus r = "OPTIMAL" ↔
      ∃ s, r.efficiency_score = some s ∧ 90 < s) ∧
    (∀ r₁ r₂ : EnergyRow, r₁.efficiency_score = r₂.efficiency_score →
      energyRowStatus r₁ = energyRowStatus r₂) := by
  constructor
  · intro r
    rcases hr : r.efficiency_score with _ | s
    · simp only [energyRowStatus, displayedEfficiencyScore, jsOrQ, hr]
      rw [if_neg (by norm_num)]
      constructor
      · intro h; exact absurd h (by decide)
      · rintro ⟨s, hs, _⟩; exact absurd hs (by simp)
    · simp only [energyRowStatus, displayedEfficiencyScore, jsOrQ, hr]
      by_cases hs0 : s = 0
      · subst hs0
        rw [if_pos rfl, if_neg (by norm_num)]
        constructor
        · intro h; exact absurd h (by decide)
        · rintro ⟨u, hu, hgt⟩
          rw [Option.some.injEq] at hu
          subst hu
          exact absurd hgt (by norm_num)
      · rw [if_neg hs0]
        by_cases hgt : (90 : ℚ) < s
        · rw [if_pos hgt]
          exact ⟨fun _ => ⟨s, rfl, hgt⟩, fun _ => rfl⟩
        · rw [if_neg hgt]
          constructor
          · intro h; exact absurd h (by decide)
          · rintro ⟨u, hu, hgtu⟩
            rw [Option.some.injEq] at hu
            subst hu
            exact absurd hgtu hgt
  · intro r₁ r₂ h
    simp only [energyRowStatus, displayedEfficiencyScore, jsOrQ, h]

/-- An energy row scored strictly above 90. -/
def optimalRow : EnergyRow :=
  { unit_name := some "Unidad de Craqueo FCC-201"
    efficiency_score := some 95
    savings_potential := none
    recommendation := none }

/-- Two energy rows with equal scores but different names. -/
def sameScoreRowA : EnergyRow :=
  { unit_name := some "Hidrotratadora HT-301"
    efficiency_score := some 80
    savings_potential := some 120
    recommendation := some "Revisar intercambiador" }

/-- Companion row to sameScoreRowA with the same score. -/
def sameScoreRowB : EnergyRow :=
  { unit_name := some "Unidad de Destilacion CDU-101"
    efficiency_score := some 80
    savings_potential := none
    recommendation := none }

/-- Witness for C8 at concrete rows: a score of 95 yields OPTIMAL, and two rows
with equal scores but different remaining fields get the same status. -/
theorem c8_energy_status_rule_witness :
    energyRowStatus optimalRow = "OPTIMAL" ∧
    energyRowStatus sameScoreRowA = energyRowStatus sameScoreRowB :=
  ⟨(c8_energy_status_rule.1 optimalRow).mpr ⟨95, rfl, by norm_num⟩,
   c8_energy_status_rule.2 sameScoreRowA sameScoreRowB rfl⟩

/-! ## Supply view (src/frontend/src/views/Supply.js): purchase orders -/

/-- An inventory item as consumed by the two Supply.js variants.  The first
variant reads quantity and min_level; the second reads quantity and status. -/
structure SupplyItem where
  item_name : String
  quantity : ℚ
  min_level : ℚ
  status : String
deriving DecidableEq, Repr

/-- Quantity ordered by the first generator (Supply.js line 121): stock needed
to reach twice the minimum level. -/
def reorderQuantity1 (i : SupplyItem) : ℚ :=
  i.min_level * 2 - i.quantity

/-- Quantity ordered by the second generator (Supply.js line 506): twice the
current stock. -/
def reorderQuantity2 (i : SupplyItem) : ℚ :=
  i.quantity * 2

/-- First purchase-order generator (Supply.js lines 96-148): selects items with
quantity at most min_level and orders reorderQuantity1 for each. -/
def generatePurchaseOrder1 (inv : List SupplyItem) : List (SupplyItem × ℚ) :=
  (inv.filter (fun i => decide (i.quantity ≤ i.min_level))).map
    (fun i => (i, reorderQuantity1 i))

/-- Second purchase-order generator (Supply.js lines 497-509): selects items
whose status is LOW or CRITICAL and orders reorderQuantity2 for each. -/
def generatePurchaseOrder2 (inv : List SupplyItem) : List (SupplyItem × ℚ) :=
  (inv.filter (fun i => decide (i.status = "LOW" ∨ i.status = "CRITICAL"))).map
    (fun i => (i, reorderQuantity2 i))

/-- An item below its minimum level whose status field nonetheless reads OK. -/
def okLowStockItem : SupplyItem :=
  { item_name := "Valvula de Presion", quantity := 5, min_level := 10, status := "OK" }

/-! ## Theorems for C9 -/

/-- Claim C9 counterexample: on the one-item inventory holding an item with
quantity 5, min_level 10 and status OK, the first generator selects the item
and orders 15 units while the second selects nothing, so the two generators
pick different item sets (and their quantity formulas, 2 times min_level minus
quantity versus 2 times quantity, differ as well). -/
theorem c9_generators_differ_counterexample :
    generatePurchaseOrder1 [okLowStockItem] = [(okLowStockItem, 15)] ∧
    generatePurchaseOrder2 [okLowStockItem] = [] := by
  constructor
  · norm_num [generatePurchaseOrder1, reorderQuantity1, okLowStockItem, List.filter_cons]
  · norm_num [generatePurchaseOrder2, okLowStockItem, List.filter_cons]
    exact ⟨by decide, by decide⟩

/-- Claim C9 (amended): the two generators are not equivalent in general.  When
every item's status reads LOW or CRITICAL exactly when its quantity is at most
min_level, they do select the same set of items; but per item the ordered
quantities (2 times min_level minus quantity versus 2 times quantity) agree
exactly when 2 times min_level equals 3 times quantity. -/
theorem c9_generators_amended (inv : List SupplyItem)
    (h : ∀ i ∈ inv, ((i.status = "LOW" ∨ i.status = "CRITICAL") ↔ i.quantity ≤ i.min_level)) :
    (generatePurchaseOrder1 inv).map Prod.fst = (generatePurchaseOrder2 inv).map Prod.fst ∧
    ∀ i : SupplyItem, reorderQuantity1 i = reorderQuantity2 i ↔
      2 * i.min_level = 3 * i.quantity := by
  constructor
  · simp only [generatePurchaseOrder1, generatePurchaseOrder2, List.map_map]
    have hfst : ∀ f : SupplyItem → ℚ,
        (Prod.fst ∘ fun i : SupplyItem => (i, f i)) = id := fun f => rfl
    rw [hfst, hfst, List.map_id, List.map_id]
    refine List.filter_congr ?_
    intro i hi
    exact decide_eq_decide.mpr (h i hi).symm
  · intro i
    unfold reorderQuantity1 reorderQuantity2
    constructor <;> intro hq <;> linarith

/-- An item marked LOW whose quantity 4 and minimum level 6 satisfy
2 times min_level equals 3 times quantity. -/
def lowStockItem : SupplyItem :=
  { item_name := "Sello Mecanico", quantity := 4, min_level := 6, status := "LOW" }

/-- Witness for the amended C9 at a concrete one-item inventory satisfying the
status-level correspondence. -/
theorem c9_generators_amended_witness :
    (generatePurchaseOrder1 [lowStockItem]).map Prod.fst =
      (generatePurchaseOrder2 [lowStockItem]).map Prod.fst ∧
    (reorderQuantity1 lowStockItem = reorderQuantity2 lowStockItem ↔
      2 * lowStockItem.min_level = 3 * lowStockItem.quantity) :=
  ⟨(c9_generators_amended [lowStockItem] (by decide)).1,
   (c9_generators_amended [lowStockItem] (by decide)).2 lowStockItem⟩

/-! ## Energy Efficiency Scorer (spec section 4.4), modelled from the spec -/

/-- Modelled from the spec: the backend Energy Efficiency Scorer is absent from
the available sources (only its frontend consumer Energy.js is present); per
spec section 4.4 the deviation is average consumption minus benchmark, divided
by the benchmark. -/
def specDeviation (avg benchmark : ℚ) : ℚ :=
  (avg - benchmark) / benchmark

/-- Clamping of a value into the closed interval from lo to hi. -/
def clampQ (x lo hi : ℚ) : ℚ :=
  max lo (min x hi)

/-- Modelled from the spec: efficiency score of spec section 4.4, namely
clamp of 100 minus deviation times 100 into the interval from 0 to 100. -/
def specEfficiencyScore (avg benchmark : ℚ) : ℚ :=
  clampQ (100 - specDeviation avg benchmark * 100) 0 100

/-! ## Theorems for C7 -/

/-- Claim C7: holding a positive benchmark fixed, the efficiency score is
monotonically non-increasing as average consumption increases at or above the
benchmark. -/
theorem c7_efficiency_monotone (b a₁ a₂ : ℚ) (hb : 0 < b) (h₁ : b ≤ a₁)
    (h₂ : a₁ ≤ a₂) :
    specEfficiencyScore a₂ b ≤ specEfficiencyScore a₁ b := by
  unfold specEfficiencyScore clampQ specDeviation
  have hdev : (a₁ - b) / b ≤ (a₂ - b) / b :=
    (div_le_div_iff_of_pos_right hb).mpr (by linarith)
  have h100 : 100 - (a₂ - b) / b * 100 ≤ 100 - (a₁ - b) / b * 100 := by
    have := mul_le_mul_of_nonneg_right hdev (by norm_num : (0 : ℚ) ≤ 100)
    linarith
  exact max_le_max (le_refl 0) (min_le_min h100 (le_refl 100))

/-- Witness for C7 at the spec scenario benchmark 100: consumptions 110 and 120
score 90 and 80, and the theorem instance gives the non-increase. -/
theorem c7_efficiency_monotone_witness :
    specEfficiencyScore 110 100 = 90 ∧
    specEfficiencyScore 120 100 = 80 ∧
    specEfficiencyScore 120 100 ≤ specEfficiencyScore 110 100 :=
  ⟨by norm_num [specEfficiencyScore, clampQ, specDeviation],
   by norm_num [specEfficiencyScore, clampQ, specDeviation],
   c7_efficiency_monotone 100 110 120 (by norm_num) (by norm_num) (by norm_num)⟩

/-! ## Explanation Generator (spec section 4.7), modelled from the spec -/

/-- A raw additive attribution for one feature, input of the explanation
generator. -/
structure FeatureContribution where
  feature : String
  contribution : ℚ
deriving DecidableEq, Repr

/-- A ranked driver as published in top_drivers and consumed by the
Maintenance view: feature, contribution_pct, direction. -/
structure RankedDriver where
  feature : String
  contribution_pct : ℚ
  direction : String
deriving DecidableEq, Repr

/-- Modelled from the spec: the total attributed magnitude of a prediction,
the sum of the absolute feature contributions (spec section 4.7). -/
def totalMagnitude (cs : List FeatureContribution) : ℚ :=
  (cs.map (fun c => |c.contribution|)).sum

/-- Modelled from the spec: one driver entry; contribution_pct is the share of
the total attributed magnitude, scaled to percent (0 when the total is 0,
matching the rational convention that division by zero yields 0). -/
def driverOf (t : ℚ) (c : FeatureContribution) : RankedDriver :=
  { feature := c.feature
    contribution_pct := |c.contribution| / t * 100
    direction := if 0 ≤ c.contribution then "aumento" else "disminucion" }

/-- Descending order on ranked drivers: the second driver's share is at most
the first's.  Since contribution_pct is proportional to the absolute
contribution, this is descending order by magnitude. -/
def driverGE (a b : RankedDriver) : Prop :=
  b.contribution_pct ≤ a.contribution_pct

instance : DecidableRel driverGE :=
  fun a b => inferInstanceAs (Decidable (b.contribution_pct ≤ a.contribution_pct))

instance : IsTotal RankedDriver driverGE :=
  ⟨fun a b => le_total b.contribution_pct a.contribution_pct⟩

instance : IsTrans RankedDriver driverGE :=
  ⟨fun _ _ _ hab hbc => le_trans hbc hab⟩

/-- Modelled from the spec: the top_drivers list of a prediction, every feature
converted to a driver entry and sorted descending by contribution share
(spec section 4.7). -/
def rankedDrivers (cs : List FeatureContribution) : List RankedDriver :=
  List.insertionSort driverGE (cs.map (driverOf (totalMagnitude cs)))

/-- The driver entries the Maintenance view actually renders
(part_007 line 352): the slice of the first three entries of top_drivers. -/
def shownTopDrivers (ds : List RankedDriver) : List RankedDriver :=
  ds.take 3

/-- Sum of a list after dividing each entry by t and scaling to percent. -/
theorem sum_map_div_mul (l : List ℚ) (t : ℚ) :
    (l.map (fun x => x / t * 100)).sum = l.sum / t * 100 := by
  induction l with
  | nil => simp
  | cons x xs ih =>
    simp only [List.map_cons, List.sum_cons, ih]
    ring

/-! ## Theorems for C5 -/

/-- Claim C5: for every attribution input, the contribution_pct values of the
generated top_drivers sum to at most 100 across all features, the list is
sorted descending by contribution share (hence by absolute contribution), and
every entry the view renders from the first-three slice has a share at least
that of every entry beyond the slice, so the slice holds the three largest
contributors. -/
theorem c5_top_drivers_ranked (cs : List FeatureContribution) :
    ((rankedDrivers cs).map (fun d => d.contribution_pct)).sum ≤ 100 ∧
    (rankedDrivers cs).Sorted driverGE ∧
    ((rankedDrivers cs).drop 3).all
      (fun e => (shownTopDrivers (rankedDrivers cs)).all
        (fun d => decide (e.contribution_pct ≤ d.contribution_pct))) = true := by
  refine ⟨?_, List.sorted_insertionSort _ _, ?_⟩
  · have hperm : List.Perm (rankedDrivers cs) (cs.map (driverOf (totalMagnitude cs))) :=
      List.perm_insertionSort _ _
    rw [(hperm.map (fun d => d.contribution_pct)).sum_eq, List.map_map]
    have hcomp : ((fun d : RankedDriver => d.contribution_pct) ∘ driverOf (totalMagnitude cs))
        = fun c : FeatureContribution => |c.contribution| / totalMagnitude cs * 100 := rfl
    rw [hcomp]
    have hmap : (cs.map fun c : FeatureContribution =>
          |c.contribution| / totalMagnitude cs * 100)
        = (cs.map fun c => |c.contribution|).map
            (fun x => x / totalMagnitude cs * 100) := by
      rw [List.map_map]
      rfl
    rw [hmap, sum_map_div_mul]
    have ht : (cs.map fun c => |c.contribution|).sum = totalMagnitude cs := rfl
    rw [ht]
    have htn : 0 ≤ totalMagnitude cs := by
      refine List.sum_nonneg ?_
      intro x hx
      obtain ⟨c, _, hc⟩ := List.mem_map.mp hx
      rw [← hc]
      exact abs_nonneg _
    rcases eq_or_lt_of_le htn with heq | hpos
    · rw [← heq, div_zero, zero_mul]
      norm_num
    · rw [div_self (ne_of_gt hpos), one_mul]
  · have hp : (rankedDrivers cs).Pairwise driverGE :=
      List.sorted_insertionSort _ _
    rw [← List.take_append_drop 3 (rankedDrivers cs)] at hp
    have hrel := (List.pairwise_append.mp hp).2.2
    rw [List.all_eq_true]
    intro e he
    rw [List.all_eq_true]
    intro d hd
    rw [decide_eq_true_eq]
    exact hrel d hd e he
